import Mathlib

/-!
Shallow embedding of the core logic of `nvidia-dev-ctl.py` (NVIDIA mdev
device manager): the reservation save/restore codec, the restore engine,
the bounded-retry waiter, the PCI enumeration filter, the lazy
supported-types cache, and the driver-name lookup used by the PCI listing.

Strings from the Python program are modelled as `List Char`; the
pseudo-filesystem and the side effects of `create` are modelled as
explicit parameters (existence predicates, scan results, an outcome
oracle for create calls).
-/

/-! ### Python string primitives used by the codec -/

/-- Whitespace set of Python `str.strip()` / `str.split()` (ASCII part). -/
def isPySpace (c : Char) : Bool :=
  c == ' ' || c == '\t' || c == '\n' || c == '\r' || c == Char.ofNat 11 || c == Char.ofNat 12

/-- Python `line.strip()`: drop leading and trailing whitespace. -/
def pyStrip (l : List Char) : List Char :=
  ((l.dropWhile isPySpace).reverse.dropWhile isPySpace).reverse

/-- Python `line[:line.find "#"]` when `"#"` occurs, else `line` unchanged
(`comment_pos == -1` leaves the line as is); both cases are exactly
`takeWhile (· != '#')`. -/
def cutHash (l : List Char) : List Char :=
  l.takeWhile (fun c => c != '#')

/-- Split a character list at every whitespace character, keeping empty
fields; `pySplit` below filters the empties out, which is exactly the
behaviour of Python `str.split()` with no arguments (split on runs of
whitespace, ignoring leading/trailing whitespace). -/
def splitFields : List Char → List (List Char)
  | [] => [[]]
  | c :: cs =>
    if isPySpace c then [] :: splitFields cs
    else
      match splitFields cs with
      | [] => [[c]]
      | f :: fs => (c :: f) :: fs

/-- Python `line.split()` with no arguments. -/
def pySplit (l : List Char) : List (List Char) :=
  (splitFields l).filter (fun t => !t.isEmpty)

/-! ### Waiter (source: class `Waiter`, method `wait`)

The predicate is modelled as a stream `check : Nat → Bool` giving the
result of the k-th call (0-based).  The source loop keeps a `trial`
counter that runs from 0 up to `num_trials`; here the same loop is
expressed with the remaining-trials count `rem = num_trials - trial`,
which makes the recursion structural.  This models the `num_trials > 0`
branch of the source; with `num_trials <= 0` the source loops until the
predicate holds, which is not a total function. -/

/-- One pass of `Waiter.wait`'s `while` loop: `k` is the index of the next
predicate call, `rem` the number of trials still allowed after this call.
Returns `(result, number of calls made, number of delays slept)`. -/
def waitFrom (check : Nat → Bool) : Nat → Nat → Bool × Nat × Nat
  | k, 0 => if check k then (true, k + 1, k) else (false, k + 1, k)
  | k, Nat.succ r => if check k then (true, k + 1, k) else waitFrom check (k + 1) r

/-- `Waiter.wait` with `num_trials = n > 0`: initial call plus up to `n`
retries, one delay before every retry. -/
def wait (check : Nat → Bool) (num_trials : Nat) : Bool × Nat × Nat :=
  waitFrom check 0 num_trials

/-! ### Reservation codec (source: `DevCtl.save_mdev`, `DevCtl.restore_mdev`) -/

/-- Line handling of `restore_mdev` up to record extraction: strip, cut
at the first `'#'`, skip if blank, split on whitespace and require
exactly three tokens — `InvalidMdevFileFormat` otherwise, modelled as
`Except.error ()`. -/
def parseLine (l : List Char) : Except Unit (Option (List Char × List Char × List Char)) :=
  if (cutHash (pyStrip l)).isEmpty then Except.ok none
  else
    match pySplit (cutHash (pyStrip l)) with
    | [u, p, t] => Except.ok (some (u, p, t))
    | _ => Except.error ()

/-- Record sequence extracted by `restore_mdev`'s line loop from a file
(given as its list of lines); the first malformed line aborts. -/
def parseLines : List (List Char) → Except Unit (List (List Char × List Char × List Char))
  | [] => Except.ok []
  | l :: ls =>
    match parseLine l with
    | Except.error e => Except.error e
    | Except.ok none => parseLines ls
    | Except.ok (some r) => (parseLines ls).map (fun rs => r :: rs)

/-- First header line written by `save_mdev`. -/
def headerLine1 : List Char := "# MDEV UUID Reservation\n".data

/-- Second header line written by `save_mdev`. -/
def headerLine2 : List Char := "# This file is auto-generated by nvidia-dev-ctl.py\n".data

/-- Data line written by `save_mdev` for one cached device:
`"{}\t{}\t{}\n"` formatted with uuid, pci address, and type name. -/
def deviceLine (d : List Char × List Char × List Char) : List Char :=
  d.1 ++ '\t' :: d.2.1 ++ '\t' :: d.2.2 ++ ['\n']

/-- `DevCtl.save_mdev`: two header lines, then one data line per cached
device, in inventory iteration order.  The inventory is the sequence of
`(uuid, pci_address, mdev_type.type)` triples of the cached devices. -/
def save_mdev (devs : List (List Char × List Char × List Char)) : List (List Char) :=
  headerLine1 :: headerLine2 :: devs.map deviceLine

/-- Validity of one reservation-file field: nonempty, no whitespace, no
`'#'` — what the spec's "valid reservation file" requires of every
serialized token. -/
def goodToken (t : List Char) : Bool :=
  !t.isEmpty && t.all (fun c => !isPySpace c && c != '#')

/-- Claim-side description of a malformed line: after stripping and
removing everything from the first `'#'`, the line is non-blank and does
not split into exactly three whitespace-separated tokens. -/
def malformedLine (l : List Char) : Bool :=
  !(cutHash (pyStrip l)).isEmpty && (pySplit (cutHash (pyStrip l))).length != 3

/-! ### Restore engine (source: `MdevType.create`, `DevCtl.restore_mdev`) -/

/-- Attribute snapshot of an `MdevType` (the four attribute files read by
`MdevType.update`). -/
structure MdevTypeM where
  name : List Char
  description : List Char
  device_api : List Char
  available_instances : Int
deriving DecidableEq

/-- Outcome of one `mdev_type.create(uuid)` call: the write and the
subsequent `update()` succeed, yielding a fresh attribute snapshot, or
they raise `PermissionError` / another `OSError` (snapshot unchanged). -/
inductive CreateOutcome
  | success (updated : MdevTypeM)
  | permissionError
  | osError
deriving DecidableEq

/-- First-match association lookup, the model of `dict.get` (keys are
unique in the source dictionaries). -/
def alookup {α β : Type} [DecidableEq α] : List (α × β) → α → Option β
  | [], _ => none
  | e :: rest, a => if a = e.1 then some e.2 else alookup rest a

/-- State of `DevCtl` during `restore_mdev`, extended with an observation
trace: the cached device inventory (the UUID keys of `mdev_devices`), the
cached class inventory with each class's supported-types map, the create
calls made so far as `(class address, type name, uuid)` triples, the
running batch `result`, and the number of create calls already made (the
index into the outcome oracle). -/
structure RestoreState where
  mdev_devices : List (List Char)
  mdev_device_classes : List (List Char × List (List Char × MdevTypeM))
  createCalls : List (List Char × List Char × List Char)
  result : Nat
  callIdx : Nat
deriving DecidableEq

/-- Replace the attribute snapshot of type `tname` in class `pci` — the
in-place mutation of the shared `MdevType` object by `create`/`update`. -/
def updateType (classes : List (List Char × List (List Char × MdevTypeM)))
    (pci tname : List Char) (newT : MdevTypeM) :
    List (List Char × List (List Char × MdevTypeM)) :=
  classes.map (fun c =>
    if c.1 = pci then (c.1, c.2.map (fun e => if e.1 = tname then (e.1, newT) else e)) else c)

/-- Branch taken by `restore_mdev`'s loop body for one parsed record
`(uuid, pci_address, mdev_type_name)` — the successive guards of the
source loop in order: already-cached UUID (skip), unknown class, unknown
type, exhausted capacity, and otherwise the `create(uuid)` call with its
outcome. -/
inductive StepKind
  | skip
  | noClass
  | noType
  | noCapacity
  | doCreate (outcome : CreateOutcome)
deriving DecidableEq

/-- The guard chain of `restore_mdev`'s loop body. -/
def classifyRecord (env : Nat → CreateOutcome) (st : RestoreState)
    (r : List Char × List Char × List Char) : StepKind :=
  match r with
  | (uuid, pci_address, mdev_type_name) =>
    if uuid ∈ st.mdev_devices then StepKind.skip
    else
      match alookup st.mdev_device_classes pci_address with
      | none => StepKind.noClass
      | some types =>
        match alookup types mdev_type_name with
        | none => StepKind.noType
        | some ty =>
          if ty.available_instances ≤ 0 then StepKind.noCapacity
          else StepKind.doCreate (env st.callIdx)

/-- Body of `restore_mdev`'s loop for one parsed record: skip if the UUID
is already cached; set `result = 1` if the class or the type is unknown
or capacity is exhausted; otherwise call `create(uuid)` (recorded in
`createCalls`); a create failure also sets `result = 1`, a create success
installs the re-read attribute snapshot of the shared type object. -/
def processRecord (env : Nat → CreateOutcome) (st : RestoreState)
    (r : List Char × List Char × List Char) : RestoreState :=
  match r with
  | (uuid, pci_address, mdev_type_name) =>
    match classifyRecord env st r with
    | StepKind.skip => st
    | StepKind.noClass => { st with result := 1 }
    | StepKind.noType => { st with result := 1 }
    | StepKind.noCapacity => { st with result := 1 }
    | StepKind.doCreate (CreateOutcome.success updated) =>
      { st with
        mdev_device_classes :=
          updateType st.mdev_device_classes pci_address mdev_type_name updated,
        createCalls := st.createCalls ++ [(pci_address, mdev_type_name, uuid)],
        callIdx := st.callIdx + 1 }
    | StepKind.doCreate CreateOutcome.permissionError =>
      { st with
        createCalls := st.createCalls ++ [(pci_address, mdev_type_name, uuid)],
        result := 1,
        callIdx := st.callIdx + 1 }
    | StepKind.doCreate CreateOutcome.osError =>
      { st with
        createCalls := st.createCalls ++ [(pci_address, mdev_type_name, uuid)],
        result := 1,
        callIdx := st.callIdx + 1 }

/-- Whether a record makes `restore_mdev` set `result = 1`: unknown
class, unknown type, exhausted capacity, or a failing create call.  An
already-cached UUID is a skip, not a failure. -/
def recordFails (env : Nat → CreateOutcome) (st : RestoreState)
    (r : List Char × List Char × List Char) : Bool :=
  match classifyRecord env st r with
  | StepKind.skip => false
  | StepKind.noClass => true
  | StepKind.noType => true
  | StepKind.noCapacity => true
  | StepKind.doCreate (CreateOutcome.success _) => false
  | StepKind.doCreate CreateOutcome.permissionError => true
  | StepKind.doCreate CreateOutcome.osError => true

/-- The claim's condition for a create call on a record: UUID not already
cached, class found, type found, positive capacity (independent of the
call's outcome). -/
def createInvoked (st : RestoreState) (r : List Char × List Char × List Char) : Bool :=
  match r with
  | (uuid, pci_address, mdev_type_name) =>
    if uuid ∈ st.mdev_devices then false
    else
      match alookup st.mdev_device_classes pci_address with
      | none => false
      | some types =>
        match alookup types mdev_type_name with
        | none => false
        | some ty => decide (0 < ty.available_instances)

/-- The record-processing part of `restore_mdev` over an already-parsed
record list, in file order. -/
def runRecords (env : Nat → CreateOutcome) :
    List (List Char × List Char × List Char) → RestoreState → RestoreState
  | [], st => st
  | r :: rs, st => runRecords env rs (processRecord env st r)

/-- Whether some record of the list fails along the run started at `st`. -/
def anyRecordFails (env : Nat → CreateOutcome) :
    List (List Char × List Char × List Char) → RestoreState → Bool
  | [], _ => false
  | r :: rs, st => recordFails env st r || anyRecordFails env rs (processRecord env st r)

/-- `DevCtl.restore_mdev` over the input file's lines: parse each line
(a malformed line raises `InvalidMdevFileFormat` and aborts the run),
skip blanks and comments, and process each record with `processRecord`. -/
def restore_mdev (env : Nat → CreateOutcome) :
    List (List Char) → RestoreState → Except Unit RestoreState
  | [], st => Except.ok st
  | l :: ls, st =>
    match parseLine l with
    | Except.error e => Except.error e
    | Except.ok none => restore_mdev env ls st
    | Except.ok (some r) => restore_mdev env ls (processRecord env st r)

/-- Key structure of the cached class inventory: the class addresses and,
per class, the type names of its supported-types map. -/
def classKeys (classes : List (List Char × List (List Char × MdevTypeM))) :
    List (List Char × List (List Char)) :=
  classes.map (fun c => (c.1, c.2.map Prod.fst))

/-! ### Lazy supported-types cache (source: `MdevDeviceClass.supported_mdev_types`) -/

/-- Result of `MdevType.from_path` for one scanned type: a loaded
attribute snapshot, or an attribute-file read failure (an `OSError`
escaping `update`). -/
inductive LoadResult
  | loaded (t : MdevTypeM)
  | readError
deriving DecidableEq

/-- The `_supported_mdev_types` field of one `MdevDeviceClass`: `none`
until first access. -/
structure MdevClassCache where
  cache : Option (List (List Char × MdevTypeM))
deriving DecidableEq

instance : Inhabited MdevTypeM := ⟨⟨[], [], [], 0⟩⟩

instance : Inhabited LoadResult := ⟨LoadResult.readError⟩

instance : Inhabited MdevClassCache := ⟨⟨none⟩⟩

/-- The population loop of `supported_mdev_types`: insert loaded types
one by one into the already-assigned dictionary; a read failure stops the
loop, leaving the dictionary built so far (`true` = a failure escaped). -/
def loadTypes : List (List Char × LoadResult) → List (List Char × MdevTypeM) →
    List (List Char × MdevTypeM) × Bool
  | [], acc => (acc, false)
  | e :: rest, acc =>
    match e.2 with
    | LoadResult.loaded t => loadTypes rest (acc ++ [(e.1, t)])
    | LoadResult.readError => (acc, true)

/-- Property `MdevDeviceClass.supported_mdev_types`: on first access
assign a fresh dictionary and populate it from the scanner; afterwards
return the cached dictionary.  `scan` is the scanner's (sorted) output
with each type's load outcome; an error during population propagates
(`Except.error`) while the dictionary populated so far stays assigned,
because the source assigns `self._supported_mdev_types = OrderedDict()`
before the population loop. -/
def supported_mdev_types (scan : List (List Char × LoadResult)) (st : MdevClassCache) :
    Except Unit (List (List Char × MdevTypeM)) × MdevClassCache :=
  match st.cache with
  | some m => (Except.ok m, st)
  | none =>
    match loadTypes scan [] with
    | (m, true) => (Except.error (), ⟨some m⟩)
    | (m, false) => (Except.ok m, ⟨some m⟩)

/-- All scanned types load successfully. -/
def allLoaded (scan : List (List Char × LoadResult)) : Bool :=
  scan.all (fun e =>
    match e.2 with
    | LoadResult.loaded _ => true
    | LoadResult.readError => false)

/-- The fully loaded name-to-snapshot map of a scan. -/
def loadedMap (scan : List (List Char × LoadResult)) : List (List Char × MdevTypeM) :=
  scan.filterMap (fun e =>
    match e.2 with
    | LoadResult.loaded t => some (e.1, t)
    | LoadResult.readError => none)

/-! ### PCI enumeration and driver lookup (source: `each_pci_device_and_path`,
`get_driver_of_device`, `DevCtl.print_pci_devices`) -/

/-- Python `s.rstrip "\n"`, applied to the vendor file content. -/
def rstripNl (l : List Char) : List Char :=
  (l.reverse.dropWhile (fun c => c == '\n')).reverse

/-- `PCI_BUS_DEVICE_PATH` joined with a device name. -/
def pciDevPath (dev : List Char) : List Char :=
  "/sys/bus/pci/devices/".data ++ dev

/-- Auto-prefixing of the vendor filter: `"0x"` prepended when that
prefix is missing (`if not vendor.startswith("0x"): vendor = "0x" +
vendor`). -/
def withZeroX (vendor : List Char) : List Char :=
  match vendor with
  | '0' :: 'x' :: _ => vendor
  | _ => '0' :: 'x' :: vendor

/-- Loop body of `each_pci_device_and_path` for one device, with the
(already prefixed) filter value `v`: read the vendor file if the filter
is truthy and the file exists, skip on mismatch, otherwise yield the
`(name, path)` pair. -/
def pciKeep (v : List Char) (d : List Char × Option (List Char)) :
    Option (List Char × List Char) :=
  if !v.isEmpty then
    match d.2 with
    | some content =>
      if rstripNl content != v then none else some (d.1, pciDevPath d.1)
    | none => some (d.1, pciDevPath d.1)
  else some (d.1, pciDevPath d.1)

/-- `each_pci_device_and_path`: iterate the sorted device list `devs`,
each device paired with the content of its `vendor` attribute file
(`none` = file absent).  A truthy `vendor` argument is prefixed with
`"0x"` unless already so prefixed; a device whose vendor file exists and
whose stripped content differs from the filter is skipped; every other
device is yielded as `(name, path)`. -/
def each_pci_device_and_path (vendor : List Char)
    (devs : List (List Char × Option (List Char))) : List (List Char × List Char) :=
  let v := if vendor.isEmpty then vendor else withZeroX vendor
  devs.filterMap (pciKeep v)

/-- Claim-side filter predicate: keep a device iff its vendor file is
absent or its content, with trailing newlines stripped, equals the
auto-prefixed filter value. -/
def vendorKeepSpec (vendor : List Char) (d : List Char × Option (List Char)) : Bool :=
  match d.2 with
  | none => true
  | some content => rstripNl content == withZeroX vendor

/-- The `NVIDIA_VENDOR` constant. -/
def NVIDIA_VENDOR : List Char := "10de".data

/-- Error kinds of `get_driver_of_device`. -/
inductive DriverErr
  | invalidPCIDeviceName
  | invalidDeviceDriverPath
deriving DecidableEq

/-- Driver symlink path of a device: `"/sys/bus/pci/devices/{}/driver"`. -/
def driverPathOf (dev : List Char) : List Char :=
  "/sys/bus/pci/devices/".data ++ dev ++ "/driver".data

/-- `get_driver_of_device`: a falsy (empty) device name raises
`InvalidPCIDeviceName`; a driver path for which `os.path.exists` is false
(including a missing or dangling `driver` symlink) raises
`InvalidDeviceDriverPath`; otherwise the driver name is the basename of
the resolved path, provided by the external filesystem as
`resolveBase`. -/
def get_driver_of_device (dev : List Char) (fsExists : List Char → Bool)
    (resolveBase : List Char → List Char) : Except DriverErr (List Char) :=
  if dev.isEmpty then Except.error DriverErr.invalidPCIDeviceName
  else if !fsExists (driverPathOf dev) then Except.error DriverErr.invalidDeviceDriverPath
  else Except.ok (resolveBase (driverPathOf dev))

/-- Driver cell of one listing row: `print_pci_devices` downgrades the
two error kinds to the placeholders `"no driver"` and `"no driver path"`
instead of aborting. -/
def driverCell (fsExists : List Char → Bool) (resolveBase : List Char → List Char)
    (dev : List Char) : List Char :=
  match get_driver_of_device dev fsExists resolveBase with
  | Except.ok n => n
  | Except.error DriverErr.invalidPCIDeviceName => "no driver".data
  | Except.error DriverErr.invalidDeviceDriverPath => "no driver path".data

/-- `DevCtl.print_pci_devices`: header row, then one row per device of
the NVIDIA-filtered enumeration.  The `pci_addresses_filter` argument is
accepted (it is what `list_pci` passes) but the source body never reads
it. -/
def print_pci_devices (fsExists : List Char → Bool) (resolveBase : List Char → List Char)
    (devs : List (List Char × Option (List Char)))
    (pci_addresses_filter : Option (List (List Char))) :
    List (List Char × List Char × List Char) :=
  ("PCI ADDRESS".data, "DEVICE DRIVER".data, "PCI DEVICE PATH".data) ::
    (each_pci_device_and_path NVIDIA_VENDOR devs).map
      (fun m => (m.1, driverCell fsExists resolveBase m.1, m.2))

/-! ### Concrete data for witnesses and counterexamples -/

/-- Attribute snapshot with capacity 4. -/
def tyA : MdevTypeM := ⟨"GRID T4-1Q".data, "vgpu".data, "vfio-pci".data, 4⟩

/-- Attribute snapshot with capacity 3 (the re-read after a create). -/
def tyB : MdevTypeM := ⟨"GRID T4-1Q".data, "vgpu".data, "vfio-pci".data, 3⟩

/-- Concrete restore state: empty device inventory and one class with one
type of capacity 4. -/
def rstDemo : RestoreState :=
  ⟨[], [("0000:01:00.0".data, [("nvidia-100".data, tyA)])], [], 0, 0⟩

/-- Concrete outcome oracle: every create call succeeds and the re-read
snapshot has capacity 3. -/
def envDemo : Nat → CreateOutcome := fun _ => CreateOutcome.success tyB

/-- Concrete restore state whose inventory already caches the demo
UUID. -/
def rstDemo2 : RestoreState :=
  ⟨["6d0bcc85-0464-4e24-9d55-21b134b6a886".data],
   [("0000:01:00.0".data, [("nvidia-100".data, tyA)])], [], 0, 0⟩

/-- Demo record whose UUID is not in `rstDemo`'s inventory. -/
def recDemo : List Char × List Char × List Char :=
  ("6d0bcc85-0464-4e24-9d55-21b134b6a886".data, "0000:01:00.0".data, "nvidia-100".data)

/-- Demo inventory for the round-trip witness. -/
def demoDevs : List (List Char × List Char × List Char) :=
  [("6d0bcc85-0464-4e24-9d55-21b134b6a886".data, "0000:01:00.0".data, "nvidia-100".data),
   ("c1f5b59c-571d-4e39-8081-3a2f53a5b884".data, "0000:02:00.0".data, "nvidia-101".data)]

/-- A well-formed data line, for the malformed-file witness. -/
def goodLineDemo : List Char := deviceLine recDemo

/-- A malformed data line (two tokens). -/
def badLineDemo : List Char := "only two\n".data

/-- Scan whose second type fails to load (for the cache claims). -/
def scanDemo : List (List Char × LoadResult) :=
  [("nvidia-100".data, LoadResult.loaded tyA), ("nvidia-101".data, LoadResult.readError)]

/-- Scan whose two types both load (for the cache witness). -/
def scanDemoOk : List (List Char × LoadResult) :=
  [("nvidia-100".data, LoadResult.loaded tyA), ("nvidia-101".data, LoadResult.loaded tyB)]

/-- Demo PCI listing: one NVIDIA device, one other-vendor device, one
device without a vendor file. -/
def pciDevsDemo : List (List Char × Option (List Char)) :=
  [("0000:01:00.0".data, some "0x10de\n".data),
   ("0000:02:00.0".data, some "0x8086\n".data),
   ("0000:03:00.0".data, none)]

/-! ### Theorems -/

/-- Helper: the first predicate call that yields true stops the loop (the
`d` preceding calls all failed and are within the trial budget). -/
theorem waitFrom_found (check : Nat → Bool) :
    ∀ (d k rem : Nat), d ≤ rem → (∀ j, j < d → check (k + j) = false) →
      check (k + d) = true → waitFrom check k rem = (true, k + d + 1, k + d) := by
  intro d
  induction d with
  | zero =>
    intro k rem _ _ hfound
    rw [Nat.add_zero] at hfound
    cases rem with
    | zero => simp [waitFrom, hfound]
    | succ r => simp [waitFrom, hfound]
  | succ d ih =>
    intro k rem hle hfail hfound
    have hk : check k = false := by
      have := hfail 0 (Nat.succ_pos d)
      simpa using this
    cases rem with
    | zero => omega
    | succ r =>
      have hrec : waitFrom check k (Nat.succ r) = waitFrom check (k + 1) r := by
        simp [waitFrom, hk]
      rw [hrec]
      have h1 : waitFrom check (k + 1) r = (true, (k + 1) + d + 1, (k + 1) + d) := by
        apply ih (k + 1) r (by omega)
        · intro j hj
          have := hfail (j + 1) (by omega)
          simpa [Nat.add_assoc, Nat.add_comm 1 j] using this
        · have : k + 1 + d = k + (d + 1) := by omega
          rw [this]
          exact hfound
      rw [h1]
      have e1 : k + 1 + d + 1 = k + (d + 1) + 1 := by omega
      have e2 : k + 1 + d = k + (d + 1) := by omega
      rw [e1, e2]

/-- Helper: a never-true predicate exhausts the budget: `rem + 1` calls,
`rem` delays. -/
theorem waitFrom_never (check : Nat → Bool) (hnever : ∀ j, check j = false) :
    ∀ (rem k : Nat), waitFrom check k rem = (false, k + rem + 1, k + rem) := by
  intro rem
  induction rem with
  | zero => intro k; simp [waitFrom, hnever k]
  | succ r ih =>
    intro k
    have := ih (k + 1)
    simp only [waitFrom, hnever k, Bool.false_eq_true, if_false]
    rw [this]
    have e1 : k + 1 + r + 1 = k + (r + 1) + 1 := by omega
    have e2 : k + 1 + r = k + (r + 1) := by omega
    rw [e1, e2]

/-- Claim C5: `Waiter.wait` returns true immediately after the first
predicate call that yields true; with `num_trials = N > 0` and a
never-true predicate it returns false after exactly `N + 1` calls
(1 initial + `N` trials), sleeping `N` delays; concretely, with
`num_trials = 3` a predicate true from its 2nd call on yields true after
exactly 2 calls and 1 delay, and a never-true predicate yields false
after exactly 4 calls. -/
theorem waiter_wait_spec :
    (∀ (check : Nat → Bool) (N m : Nat), 0 < N → m ≤ N →
        (∀ j, j < m → check j = false) → check m = true →
        wait check N = (true, m + 1, m))
    ∧ (∀ (check : Nat → Bool) (N : Nat), 0 < N → (∀ j, check j = false) →
        wait check N = (false, N + 1, N))
    ∧ wait (fun k => decide (1 ≤ k)) 3 = (true, 2, 1)
    ∧ wait (fun _ => false) 3 = (false, 4, 3) := by
  refine ⟨?_, ?_, ?_, ?_⟩
  · intro check N m _ hm hfail hfound
    have h := waitFrom_found check m 0 N hm ?_ ?_
    · simpa [wait] using h
    · intro j hj; simpa using hfail j hj
    · simpa using hfound
  · intro check N _ hnever
    have h := waitFrom_never check hnever N 0
    simpa [wait] using h
  · rfl
  · rfl

/-- Witness for C5: both concrete scenarios obtained through the general
statements of `waiter_wait_spec`. -/
theorem waiter_wait_spec_witness :
    wait (fun k => decide (1 ≤ k)) 3 = (true, 2, 1)
    ∧ wait (fun _ => false) 3 = (false, 4, 3) := by
  constructor
  · apply waiter_wait_spec.1 (fun k => decide (1 ≤ k)) 3 1 (by decide) (by decide)
    · intro j hj
      have hj0 : j = 0 := by omega
      subst hj0
      rfl
    · rfl
  · exact waiter_wait_spec.2.1 (fun _ => false) 3 (by decide) (fun j => rfl)

/-- Helper: the loop body leaves the cached device inventory unchanged in
every branch. -/
theorem processRecord_devices (env : Nat → CreateOutcome) (st : RestoreState)
    (r : List Char × List Char × List Char) :
    (processRecord env st r).mdev_devices = st.mdev_devices := by
  rcases r with ⟨u, p, t⟩
  simp only [processRecord]
  cases h : classifyRecord env st (u, p, t) with
  | doCreate o => cases o <;> rfl
  | _ => rfl

/-- Helper: the loop body's `result` is 1 exactly when the record fails,
else the running result is kept. -/
theorem processRecord_result (env : Nat → CreateOutcome) (st : RestoreState)
    (r : List Char × List Char × List Char) :
    (processRecord env st r).result =
      (if recordFails env st r = true then 1 else st.result) := by
  rcases r with ⟨u, p, t⟩
  cases h : classifyRecord env st (u, p, t) with
  | doCreate o => cases o <;> simp [processRecord, recordFails, h]
  | _ => simp [processRecord, recordFails, h]

/-- Helper: the loop body appends exactly one create call when the
claim's condition `createInvoked` holds, and none otherwise. -/
theorem createInvoked_eq_classify (env : Nat → CreateOutcome) (st : RestoreState)
    (u p t : List Char) :
    createInvoked st (u, p, t) =
      (match classifyRecord env st (u, p, t) with
       | StepKind.doCreate _ => true
       | _ => false) := by
  simp only [createInvoked, classifyRecord]
  by_cases h1 : u ∈ st.mdev_devices
  · simp [h1]
  · simp only [if_neg h1]
    cases h2 : alookup st.mdev_device_classes p with
    | none => simp
    | some types =>
      simp only []
      cases h3 : alookup types t with
      | none => simp
      | some ty =>
        simp only []
        by_cases h4 : ty.available_instances ≤ 0
        · have h5 : ¬ (0 : Int) < ty.available_instances := by omega
          simp [h4, h5]
        · have h5 : (0 : Int) < ty.available_instances := by omega
          simp [h4, h5]

/-- Helper: `createCalls` grows by the single call `(p, t, u)` iff
`createInvoked` holds. -/
theorem processRecord_calls (env : Nat → CreateOutcome) (st : RestoreState)
    (u p t : List Char) :
    (processRecord env st (u, p, t)).createCalls =
      st.createCalls ++ (if createInvoked st (u, p, t) = true then [(p, t, u)] else []) := by
  rw [createInvoked_eq_classify env st u p t]
  simp only [processRecord]
  cases h : classifyRecord env st (u, p, t) with
  | doCreate o => cases o <;> simp
  | _ => simp

/-- Helper: batch result is 1 iff some record along the run fails. -/
theorem runRecords_result (env : Nat → CreateOutcome) :
    ∀ (rs : List (List Char × List Char × List Char)) (st : RestoreState),
      (runRecords env rs st).result =
        (if anyRecordFails env rs st = true then 1 else st.result) := by
  intro rs
  induction rs with
  | nil => intro st; simp [runRecords, anyRecordFails]
  | cons r rs ih =>
    intro st
    simp only [runRecords, anyRecordFails]
    rw [ih (processRecord env st r), processRecord_result]
    by_cases hf : recordFails env st r = true
    · simp [hf]
    · simp [hf]

/-- Helper: the whole run never touches the cached device inventory. -/
theorem runRecords_devices (env : Nat → CreateOutcome) :
    ∀ (rs : List (List Char × List Char × List Char)) (st : RestoreState),
      (runRecords env rs st).mdev_devices = st.mdev_devices := by
  intro rs
  induction rs with
  | nil => intro st; rfl
  | cons r rs ih =>
    intro st
    rw [runRecords, ih (processRecord env st r), processRecord_devices]

/-- Helper: rewriting one type's snapshot keeps every class address and
every type name of the class inventory. -/
theorem classKeys_updateType (classes : List (List Char × List (List Char × MdevTypeM)))
    (pci tname : List Char) (newT : MdevTypeM) :
    classKeys (updateType classes pci tname newT) = classKeys classes := by
  simp only [classKeys, updateType, List.map_map]
  apply List.map_congr_left
  intro c _
  simp only [Function.comp_apply]
  by_cases h : c.1 = pci
  · rw [if_pos h]
    simp only [List.map_map]
    refine congrArg (fun z => (c.1, z)) ?_
    apply List.map_congr_left
    intro e _
    simp only [Function.comp_apply]
    by_cases he : e.1 = tname
    · rw [if_pos he]
    · rw [if_neg he]
  · rw [if_neg h]

/-- Helper: the loop body keeps the key structure of the class
inventory. -/
theorem processRecord_classKeys (env : Nat → CreateOutcome) (st : RestoreState)
    (r : List Char × List Char × List Char) :
    classKeys (processRecord env st r).mdev_device_classes =
      classKeys st.mdev_device_classes := by
  rcases r with ⟨u, p, t⟩
  cases h : classifyRecord env st (u, p, t) with
  | doCreate o =>
    cases o with
    | success upd =>
      simp only [processRecord, h]
      exact classKeys_updateType st.mdev_device_classes p t upd
    | permissionError => simp [processRecord, h]
    | osError => simp [processRecord, h]
  | _ => simp [processRecord, h]

/-- Helper: the whole run keeps the key structure of the class
inventory. -/
theorem runRecords_classKeys (env : Nat → CreateOutcome) :
    ∀ (rs : List (List Char × List Char × List Char)) (st : RestoreState),
      classKeys (runRecords env rs st).mdev_device_classes =
        classKeys st.mdev_device_classes := by
  intro rs
  induction rs with
  | nil => intro st; rfl
  | cons r rs ih =>
    intro st
    rw [runRecords, ih (processRecord env st r), processRecord_classKeys]

/-- Helper: an already-cached UUID is a pure skip. -/
theorem processRecord_skip (env : Nat → CreateOutcome) (st : RestoreState)
    (u p t : List Char) (h : u ∈ st.mdev_devices) :
    processRecord env st (u, p, t) = st ∧ recordFails env st (u, p, t) = false := by
  have hc : classifyRecord env st (u, p, t) = StepKind.skip := by
    simp [classifyRecord, h]
  constructor
  · simp [processRecord, hc]
  · simp [recordFails, hc]

/-- Helper: the claim-side create condition, characterized by the
successive lookups of the source. -/
theorem createInvoked_iff (st : RestoreState) (u p t : List Char) :
    createInvoked st (u, p, t) = true ↔
      (u ∉ st.mdev_devices ∧ ∃ types ty,
        alookup st.mdev_device_classes p = some types ∧
        alookup types t = some ty ∧ 0 < ty.available_instances) := by
  simp only [createInvoked]
  by_cases h1 : u ∈ st.mdev_devices
  · rw [if_pos h1]
    constructor
    · intro hfalse; simp at hfalse
    · rintro ⟨hnot, -⟩; exact absurd h1 hnot
  · rw [if_neg h1]
    cases h2 : alookup st.mdev_device_classes p with
    | none =>
      constructor
      · intro hfalse; simp at hfalse
      · rintro ⟨-, types2, ty2, htypes, -, -⟩
        exact Option.noConfusion htypes
    | some types =>
      cases h3 : alookup types t with
      | none =>
        constructor
        · intro hfalse; simp [h3] at hfalse
        · rintro ⟨-, types2, ty2, htypes, hty2, -⟩
          injection htypes with h4
          subst h4
          rw [h3] at hty2
          exact Option.noConfusion hty2
      | some ty =>
        constructor
        · intro htrue
          refine ⟨h1, types, ty, rfl, h3, ?_⟩
          simpa [h3] using htrue
        · rintro ⟨-, types2, ty2, htypes, hty2, hpos⟩
          injection htypes with h4
          subst h4
          rw [h3] at hty2
          injection hty2 with h5
          subst h5
          simpa [h3] using hpos

/-- Helper: when the claim-side create condition holds, the guard chain
reaches the create call, whose outcome is the oracle's next answer. -/
theorem classify_of_createInvoked (env : Nat → CreateOutcome) (st : RestoreState)
    (u p t : List Char) (h : createInvoked st (u, p, t) = true) :
    classifyRecord env st (u, p, t) = StepKind.doCreate (env st.callIdx) := by
  obtain ⟨h1, types, ty, h2, h3, h4⟩ := (createInvoked_iff st u p t).mp h
  have h5 : ¬ ty.available_instances ≤ 0 := by omega
  simp [classifyRecord, h1, h2, h3, h5]

/-- Claim C3: during `restore_mdev`, a record's create operation is
invoked — exactly once, with that uuid — iff the uuid is not already in
the cached inventory, the class address and type name are found, and
`available_instances > 0`; a zero-capacity record never triggers creation
and counts as a failure; a record with positive capacity and valid
class/type triggers exactly one create call and, when nothing else fails,
the batch result is 0. -/
theorem restore_create_iff (env : Nat → CreateOutcome) (st : RestoreState)
    (u p t : List Char) :
    ((processRecord env st (u, p, t)).createCalls =
      st.createCalls ++ (if createInvoked st (u, p, t) = true then [(p, t, u)] else []))
    ∧ (createInvoked st (u, p, t) = true ↔
        (u ∉ st.mdev_devices ∧ ∃ types ty,
          alookup st.mdev_device_classes p = some types ∧
          alookup types t = some ty ∧ 0 < ty.available_instances))
    ∧ (∀ types ty, u ∉ st.mdev_devices →
        alookup st.mdev_device_classes p = some types →
        alookup types t = some ty → ty.available_instances ≤ 0 →
        (processRecord env st (u, p, t)).createCalls = st.createCalls
        ∧ (processRecord env st (u, p, t)).result = 1)
    ∧ (st.result = 0 → createInvoked st (u, p, t) = true →
        ∀ upd, env st.callIdx = CreateOutcome.success upd →
          (runRecords env [(u, p, t)] st).result = 0
          ∧ (runRecords env [(u, p, t)] st).createCalls =
              st.createCalls ++ [(p, t, u)]) := by
  refine ⟨processRecord_calls env st u p t, createInvoked_iff st u p t, ?_, ?_⟩
  · intro types ty h1 h2 h3 h4
    have hc : classifyRecord env st (u, p, t) = StepKind.noCapacity := by
      simp [classifyRecord, h1, h2, h3, h4]
    constructor
    · simp [processRecord, hc]
    · simp [processRecord, hc]
  · intro h0 hinv upd henv
    have hcl := classify_of_createInvoked env st u p t hinv
    rw [henv] at hcl
    have hone : runRecords env [(u, p, t)] st = processRecord env st (u, p, t) := rfl
    constructor
    · rw [hone, processRecord_result]
      have hrf : recordFails env st (u, p, t) = false := by
        simp [recordFails, hcl]
      simp [hrf, h0]
    · rw [hone, processRecord_calls, hinv]
      simp

/-- Witness for C3: the concrete positive-capacity scenario creates the
device exactly once and the batch result is 0. -/
theorem restore_create_iff_witness :
    (runRecords envDemo [recDemo] rstDemo).result = 0
    ∧ (runRecords envDemo [recDemo] rstDemo).createCalls =
        rstDemo.createCalls ++
          [("0000:01:00.0".data, "nvidia-100".data,
            "6d0bcc85-0464-4e24-9d55-21b134b6a886".data)] :=
  (restore_create_iff envDemo rstDemo
      "6d0bcc85-0464-4e24-9d55-21b134b6a886".data
      "0000:01:00.0".data "nvidia-100".data).2.2.2 rfl (by decide) tyB rfl

/-- Claim C4: a record whose UUID is already cached is skipped without
counting as a failure, and the overall result of the batch is non-zero
iff at least one record failed the class-lookup, type-lookup, capacity,
or creation step — a batch consisting only of successes and
already-present skips returns 0. -/
theorem restore_skip_and_batch_result (env : Nat → CreateOutcome)
    (rs : List (List Char × List Char × List Char)) (st : RestoreState)
    (h0 : st.result = 0) :
    ((runRecords env rs st).result ≠ 0 ↔ anyRecordFails env rs st = true)
    ∧ (∀ u p t, u ∈ st.mdev_devices →
        processRecord env st (u, p, t) = st ∧ recordFails env st (u, p, t) = false)
    ∧ (anyRecordFails env rs st = false → (runRecords env rs st).result = 0) := by
  refine ⟨?_, ?_, ?_⟩
  · rw [runRecords_result env rs st]
    by_cases h : anyRecordFails env rs st = true
    · simp [h]
    · simp [h, h0]
  · intro u p t hmem
    exact processRecord_skip env st u p t hmem
  · intro h
    rw [runRecords_result env rs st, h]
    simpa using h0

/-- Witness for C4: the already-cached demo UUID is skipped unchanged and
not counted as a failure. -/
theorem restore_skip_and_batch_result_witness :
    processRecord envDemo rstDemo2
        ("6d0bcc85-0464-4e24-9d55-21b134b6a886".data,
         "0000:01:00.0".data, "nvidia-100".data) = rstDemo2
    ∧ recordFails envDemo rstDemo2
        ("6d0bcc85-0464-4e24-9d55-21b134b6a886".data,
         "0000:01:00.0".data, "nvidia-100".data) = false :=
  (restore_skip_and_batch_result envDemo [] rstDemo2 rfl).2.1
    "6d0bcc85-0464-4e24-9d55-21b134b6a886".data
    "0000:01:00.0".data "nvidia-100".data (by decide)

/-- Claim C9: `restore_mdev` never mutates the cached inventory maps —
the device inventory and the key structure of the class inventory stay
exactly as built at first access, even across successful create calls;
consequently a UUID appearing in two records of one file (and not cached
before the run) is not detected as already-present at its second
occurrence: the concrete duplicate file triggers two create calls. -/
theorem restore_frame_and_duplicate :
    (∀ (env : Nat → CreateOutcome) (rs : List (List Char × List Char × List Char))
        (st : RestoreState),
      (runRecords env rs st).mdev_devices = st.mdev_devices
      ∧ classKeys (runRecords env rs st).mdev_device_classes =
          classKeys st.mdev_device_classes)
    ∧ (runRecords envDemo [recDemo, recDemo] rstDemo).createCalls =
        [("0000:01:00.0".data, "nvidia-100".data,
          "6d0bcc85-0464-4e24-9d55-21b134b6a886".data),
         ("0000:01:00.0".data, "nvidia-100".data,
          "6d0bcc85-0464-4e24-9d55-21b134b6a886".data)] := by
  refine ⟨fun env rs st => ⟨runRecords_devices env rs st, runRecords_classKeys env rs st⟩, ?_⟩
  decide

/-- Helper: a malformed line makes the line handler raise
`InvalidMdevFileFormat`. -/
theorem parseLine_error_of_malformed (l : List Char) (h : malformedLine l = true) :
    parseLine l = Except.error () := by
  have hb : (!(cutHash (pyStrip l)).isEmpty
      && (pySplit (cutHash (pyStrip l))).length != 3) = true := h
  rw [Bool.and_eq_true] at hb
  obtain ⟨h1, h2⟩ := hb
  unfold parseLine
  rw [if_neg (by simp_all)]
  generalize hsp : pySplit (cutHash (pyStrip l)) = xs
  rw [hsp] at h2
  match xs with
  | [] => rfl
  | [a] => rfl
  | [a, b] => rfl
  | [a, b, c] => simp at h2
  | a :: b :: c :: d :: rest => rfl

/-- Claim C2: a line that, after stripping and comment removal, is
non-blank but does not split into exactly 3 tokens makes `restore_mdev`
raise `InvalidMdevFileFormat` and abort the whole restore immediately,
whatever the surrounding lines contain: the run is an error, and its
outcome does not depend on the lines after the malformed one. -/
theorem restore_aborts_on_malformed (env : Nat → CreateOutcome)
    (ls2 ls2x : List (List Char)) (l : List Char) (h : malformedLine l = true) :
    ∀ (ls1 : List (List Char)) (st : RestoreState),
      restore_mdev env (ls1 ++ l :: ls2) st = Except.error ()
      ∧ restore_mdev env (ls1 ++ l :: ls2) st = restore_mdev env (ls1 ++ l :: ls2x) st := by
  intro ls1
  induction ls1 with
  | nil =>
    intro st
    have he := parseLine_error_of_malformed l h
    constructor
    · simp [restore_mdev, he]
    · simp [restore_mdev, he]
  | cons l1 rest ih =>
    intro st
    simp only [List.cons_append, restore_mdev]
    cases hp : parseLine l1 with
    | error e =>
      cases e
      exact ⟨rfl, rfl⟩
    | ok o =>
      cases o with
      | none => simpa using ih st
      | some r => simpa using ih (processRecord env st r)

/-- Witness for C2: a concrete file whose middle line has two tokens
aborts even though its first and last lines are valid. -/
theorem restore_aborts_on_malformed_witness :
    restore_mdev envDemo ([goodLineDemo] ++ badLineDemo :: [goodLineDemo]) rstDemo
      = Except.error () :=
  (restore_aborts_on_malformed envDemo [goodLineDemo] [] badLineDemo (by decide)
    [goodLineDemo] rstDemo).1

/-- Helper: a list whose head is not accepted by `p` survives
`dropWhile p` unchanged. -/
theorem dropWhile_eq_self_of_head (p : Char → Bool) (l : List Char)
    (h : ∀ c, l.head? = some c → p c = false) : l.dropWhile p = l := by
  cases l with
  | nil => rfl
  | cons a as =>
    rw [List.dropWhile_cons, h a rfl]
    simp

/-- Helper: a valid token is nonempty. -/
theorem goodToken_ne_nil {tk : List Char} (h : goodToken tk = true) : tk ≠ [] := by
  intro hnil
  subst hnil
  simp [goodToken] at h

/-- Helper: a valid token's nonemptiness, in `isEmpty` form. -/
theorem goodToken_not_empty {tk : List Char} (h : goodToken tk = true) :
    (!tk.isEmpty) = true :=
  (Bool.and_eq_true _ _).mp h |>.1

/-- Helper: a valid token contains no whitespace. -/
theorem goodToken_nonspace {tk : List Char} (h : goodToken tk = true) :
    ∀ c ∈ tk, isPySpace c = false := by
  have hall := (Bool.and_eq_true _ _).mp h |>.2
  rw [List.all_eq_true] at hall
  intro c hc
  have h2 := hall c hc
  rw [Bool.and_eq_true] at h2
  simpa using h2.1

/-- Helper: a valid token contains no `'#'`. -/
theorem goodToken_ne_hash {tk : List Char} (h : goodToken tk = true) :
    ∀ c ∈ tk, (c != '#') = true := by
  have hall := (Bool.and_eq_true _ _).mp h |>.2
  rw [List.all_eq_true] at hall
  intro c hc
  exact ((Bool.and_eq_true _ _).mp (hall c hc)).2

/-- Helper: stripping a line whose body starts and ends with
non-whitespace removes exactly the trailing newline. -/
theorem pyStrip_append_newline (l : List Char)
    (h1 : ∀ c, l.head? = some c → isPySpace c = false)
    (h2 : ∀ c, l.getLast? = some c → isPySpace c = false) :
    pyStrip (l ++ ['\n']) = l := by
  cases l with
  | nil => rfl
  | cons a as =>
    have ha : isPySpace a = false := h1 a rfl
    have hstep1 : List.dropWhile isPySpace ((a :: as) ++ ['\n']) = (a :: as) ++ ['\n'] := by
      rw [List.cons_append, List.dropWhile_cons, ha]
      simp
    have hnl : isPySpace '\n' = true := by decide
    have hstep2 : List.dropWhile isPySpace ((a :: as) ++ ['\n']).reverse = (a :: as).reverse := by
      rw [List.reverse_append, List.reverse_singleton, List.singleton_append,
        List.dropWhile_cons, if_pos hnl]
      apply dropWhile_eq_self_of_head
      intro c hc
      rw [List.head?_reverse] at hc
      exact h2 c hc
    show ((((a :: as) ++ ['\n']).dropWhile isPySpace).reverse.dropWhile isPySpace).reverse
        = a :: as
    rw [hstep1, hstep2, List.reverse_reverse]

/-- Helper: a token of non-whitespace characters is a single field. -/
theorem splitFields_all_nonspace (l : List Char) (h : ∀ c ∈ l, isPySpace c = false) :
    splitFields l = [l] := by
  induction l with
  | nil => rfl
  | cons a as ih =>
    have ha : isPySpace a = false := h a (by simp)
    have ih2 := ih (fun c hc => h c (by simp [hc]))
    rw [splitFields, if_neg (by simp [ha]), ih2]

/-- Helper: a whitespace separator after a non-whitespace token cuts
exactly one field. -/
theorem splitFields_token_sep (tok : List Char) (s : Char) (rest : List Char)
    (htok : ∀ c ∈ tok, isPySpace c = false) (hs : isPySpace s = true) :
    splitFields (tok ++ s :: rest) = tok :: splitFields rest := by
  induction tok with
  | nil =>
    simp only [List.nil_append]
    rw [splitFields, if_pos (by simp [hs])]
  | cons a tk ih =>
    have ha : isPySpace a = false := htok a (by simp)
    have ih2 := ih (fun c hc => htok c (by simp [hc]))
    rw [List.cons_append, splitFields, if_neg (by simp [ha]), ih2]

/-- Helper: splitting a tab-separated three-token body yields exactly the
three tokens. -/
theorem pySplit_three_tokens (u p t : List Char)
    (hu : goodToken u = true) (hp : goodToken p = true) (ht : goodToken t = true) :
    pySplit (u ++ ('\t' :: (p ++ ('\t' :: t)))) = [u, p, t] := by
  unfold pySplit
  rw [splitFields_token_sep u '\t' (p ++ ('\t' :: t)) (goodToken_nonspace hu) (by decide)]
  rw [splitFields_token_sep p '\t' t (goodToken_nonspace hp) (by decide)]
  rw [splitFields_all_nonspace t (goodToken_nonspace ht)]
  simp [List.filter_cons, goodToken_not_empty hu, goodToken_not_empty hp,
    goodToken_not_empty ht]

/-- Helper: the last character of a tab-separated three-token body is the
last character of the third token. -/
theorem getLast?_core (u p t : List Char) (ht : t ≠ []) :
    (u ++ ('\t' :: (p ++ ('\t' :: t)))).getLast? = t.getLast? := by
  rw [List.getLast?_append_of_ne_nil _ (by simp)]
  rw [show ('\t' :: (p ++ ('\t' :: t)) : List Char) = ['\t'] ++ (p ++ ('\t' :: t)) from rfl]
  rw [List.getLast?_append_of_ne_nil _ (by simp)]
  rw [List.getLast?_append_of_ne_nil _ (List.cons_ne_nil _ _)]
  rw [show ('\t' :: t : List Char) = ['\t'] ++ t from rfl]
  rw [List.getLast?_append_of_ne_nil _ ht]

/-- Helper: stripping a serialized device line yields its tab-separated
three-token body. -/
theorem pyStrip_deviceLine (u p t : List Char)
    (hu : goodToken u = true) (hp : goodToken p = true) (ht : goodToken t = true) :
    pyStrip (deviceLine (u, p, t)) = u ++ ('\t' :: (p ++ ('\t' :: t))) := by
  have hform : deviceLine (u, p, t) = (u ++ ('\t' :: (p ++ ('\t' :: t)))) ++ ['\n'] := by
    simp [deviceLine, List.append_assoc]
  rw [hform]
  apply pyStrip_append_newline
  · intro c hc
    obtain ⟨a, us, hux⟩ := List.exists_cons_of_ne_nil (goodToken_ne_nil hu)
    subst hux
    rw [List.cons_append] at hc
    simp only [List.head?_cons, Option.some.injEq] at hc
    subst hc
    exact goodToken_nonspace hu a (by simp)
  · intro c hc
    rw [getLast?_core u p t (goodToken_ne_nil ht)] at hc
    exact goodToken_nonspace ht c (List.mem_of_getLast?_eq_some hc)

/-- Helper: a line without `'#'` survives comment removal unchanged. -/
theorem cutHash_eq_self (l : List Char) (h : ∀ c ∈ l, (c != '#') = true) :
    cutHash l = l := by
  induction l with
  | nil => rfl
  | cons a as ih =>
    unfold cutHash at *
    rw [List.takeWhile_cons, if_pos (h a (by simp)), ih (fun c hc => h c (by simp [hc]))]

/-- Helper: the line parser inverts the line serializer on valid
tokens. -/
theorem parseLine_deviceLine (u p t : List Char)
    (hu : goodToken u = true) (hp : goodToken p = true) (ht : goodToken t = true) :
    parseLine (deviceLine (u, p, t)) = Except.ok (some (u, p, t)) := by
  have hcore : ∀ c ∈ (u ++ ('\t' :: (p ++ ('\t' :: t)))), (c != '#') = true := by
    intro c hc
    simp only [List.mem_append, List.mem_cons] at hc
    rcases hc with h | h | h | h | h
    · exact goodToken_ne_hash hu c h
    · subst h; decide
    · exact goodToken_ne_hash hp c h
    · subst h; decide
    · exact goodToken_ne_hash ht c h
  unfold parseLine
  rw [pyStrip_deviceLine u p t hu hp ht, cutHash_eq_self _ hcore]
  rw [if_neg (by
    obtain ⟨a, us, hux⟩ := List.exists_cons_of_ne_nil (goodToken_ne_nil hu)
    subst hux
    simp)]
  rw [pySplit_three_tokens u p t hu hp ht]

/-- Helper: parsing all serialized data lines of a valid inventory
recovers the inventory. -/
theorem parseLines_save (devs : List (List Char × List Char × List Char))
    (h : ∀ d ∈ devs, goodToken d.1 = true ∧ goodToken d.2.1 = true
      ∧ goodToken d.2.2 = true) :
    parseLines (devs.map deviceLine) = Except.ok devs := by
  induction devs with
  | nil => rfl
  | cons d ds ih =>
    obtain ⟨h1, h2, h3⟩ := h d (by simp)
    have hds : ∀ e ∈ ds, goodToken e.1 = true ∧ goodToken e.2.1 = true
        ∧ goodToken e.2.2 = true := fun e he => h e (by simp [he])
    rcases d with ⟨u, p, t⟩
    have hp := parseLine_deviceLine u p t h1 h2 h3
    simp only [List.map_cons, parseLines, hp, ih hds, Except.map]

/-- Claim C1: round-trip of the reservation codec — serializing any
inventory of cached devices with `save_mdev` (two-line `'#'` header, then
one `UUID<TAB>CLASS-ADDRESS<TAB>TYPE-NAME` line per device in iteration
order) and parsing the result with `restore_mdev`'s line parser recovers
exactly the sequence of `(uuid, class-address, type-name)` triples in the
same order; the tokens of a valid reservation file are nonempty and free
of whitespace and `'#'`. -/
theorem save_restore_roundtrip (devs : List (List Char × List Char × List Char))
    (h : ∀ d ∈ devs, goodToken d.1 = true ∧ goodToken d.2.1 = true
      ∧ goodToken d.2.2 = true) :
    parseLines (save_mdev devs) = Except.ok devs := by
  have hh1 : parseLine headerLine1 = Except.ok none := by rfl
  have hh2 : parseLine headerLine2 = Except.ok none := by rfl
  simp only [save_mdev, parseLines, hh1, hh2]
  exact parseLines_save devs h

/-- Witness for C1: the round-trip on a concrete two-device inventory. -/
theorem save_restore_roundtrip_witness :
    parseLines (save_mdev demoDevs) = Except.ok demoDevs :=
  save_restore_roundtrip demoDevs (by decide)

/-- Helper: with a nonempty (already prefixed) filter value, the vendor
filterMap equals a filter by the claim-side keep predicate. -/
theorem filterMap_vendor (vendor : List Char)
    (hv2 : (!(withZeroX vendor).isEmpty) = true)
    (devs : List (List Char × Option (List Char))) :
    devs.filterMap (pciKeep (withZeroX vendor)) =
    (devs.filter (vendorKeepSpec vendor)).map (fun d => (d.1, pciDevPath d.1)) := by
  induction devs with
  | nil => rfl
  | cons d ds ih =>
    rcases d with ⟨n, vf⟩
    rw [List.filterMap_cons, List.filter_cons]
    cases vf with
    | none =>
      have h1 : pciKeep (withZeroX vendor) (n, none) = some (n, pciDevPath n) := by
        unfold pciKeep
        rw [if_pos hv2]
      have h2 : vendorKeepSpec vendor (n, none) = true := rfl
      rw [h1, h2]
      simp [ih]
    | some content =>
      by_cases hb : (rstripNl content == withZeroX vendor) = true
      · have h1 : pciKeep (withZeroX vendor) (n, some content)
            = some (n, pciDevPath n) := by
          unfold pciKeep
          rw [if_pos hv2]
          simp [bne, hb]
        have h2 : vendorKeepSpec vendor (n, some content) = true := by
          simp [vendorKeepSpec, hb]
        rw [h1, h2]
        simp [ih]
      · have hb2 : (rstripNl content == withZeroX vendor) = false := by
          cases hq : rstripNl content == withZeroX vendor
          · rfl
          · exact absurd hq hb
        have h1 : pciKeep (withZeroX vendor) (n, some content) = none := by
          unfold pciKeep
          rw [if_pos hv2]
          simp [bne, hb2]
        have h2 : vendorKeepSpec vendor (n, some content) = false := by
          simp [vendorKeepSpec, hb2]
        rw [h1, h2]
        simp [ih]

/-- Claim C6: with a non-empty vendor filter, `each_pci_device_and_path`
yields a device iff its vendor file is absent or its content (with
trailing newlines stripped) equals the filter value after `"0x"`
auto-prefixing: the enumeration equals the claim-side filter; devices
whose vendor file exists but mismatches are the only ones excluded. -/
theorem each_pci_vendor_filter (vendor : List Char)
    (devs : List (List Char × Option (List Char))) (hv : vendor ≠ []) :
    each_pci_device_and_path vendor devs =
      (devs.filter (vendorKeepSpec vendor)).map (fun d => (d.1, pciDevPath d.1)) := by
  have hie : vendor.isEmpty = false := by
    cases vendor with
    | nil => exact absurd rfl hv
    | cons a rest => rfl
  have hvz : withZeroX vendor ≠ [] := by
    unfold withZeroX
    split
    · exact hv
    · exact List.cons_ne_nil _ _
  have hvz2 : (!(withZeroX vendor).isEmpty) = true := by
    cases hq : withZeroX vendor with
    | nil => exact absurd hq hvz
    | cons a rest => rfl
  have hvv : (if vendor.isEmpty then vendor else withZeroX vendor) = withZeroX vendor := by
    rw [if_neg (by simp [hie])]
  simp only [each_pci_device_and_path, hvv]
  exact filterMap_vendor vendor hvz2 devs

/-- Witness for C6: the concrete three-device listing keeps the matching
NVIDIA device and the device without a vendor file, and drops the
mismatching one. -/
theorem each_pci_vendor_filter_witness :
    each_pci_device_and_path "10de".data pciDevsDemo =
      (pciDevsDemo.filter (vendorKeepSpec "10de".data)).map
        (fun d => (d.1, pciDevPath d.1)) :=
  each_pci_vendor_filter "10de".data pciDevsDemo (by decide)

/-- Claim C10: the output of `print_pci_devices` is independent of its
`pci_addresses_filter` argument — for any two filter values the same
enumeration is performed and the same table rows are produced, because
the source body never consults the parameter. -/
theorem print_pci_devices_filter_independent
    (fsExists : List Char → Bool) (resolveBase : List Char → List Char)
    (devs : List (List Char × Option (List Char)))
    (f1 f2 : Option (List (List Char))) :
    print_pci_devices fsExists resolveBase devs f1 =
      print_pci_devices fsExists resolveBase devs f2 := rfl

/-- Counterexample to C8: for a real (nonempty) device name whose
`driver` symlink is absent — `os.path.exists` is false on the driver path
— the listing cell is `"no driver path"`, not `"no driver"`: the code
does not surface a missing driver symlink as `"no driver"`. -/
theorem driver_placeholder_counterexample :
    driverCell (fun _ => false) (fun q => q) "0000:01:00.0".data
        = "no driver path".data
    ∧ driverCell (fun _ => false) (fun q => q) "0000:01:00.0".data
        ≠ "no driver".data := by
  constructor
  · rfl
  · decide

/-- Claim C8 (amended): the driver lookup distinguishes an empty device
name (`InvalidPCIDeviceName`, shown as `"no driver"`) from a missing
driver path — which includes a missing driver symlink —
(`InvalidDeviceDriverPath`, shown as `"no driver path"`), and both are
non-fatal: the listing still emits one row per enumerated device. -/
theorem driver_placeholders (fsExists : List Char → Bool)
    (resolveBase : List Char → List Char) (dev : List Char)
    (devs : List (List Char × Option (List Char))) (f : Option (List (List Char))) :
    (dev = [] →
      get_driver_of_device dev fsExists resolveBase
          = Except.error DriverErr.invalidPCIDeviceName
      ∧ driverCell fsExists resolveBase dev = "no driver".data)
    ∧ (dev ≠ [] → fsExists (driverPathOf dev) = false →
      get_driver_of_device dev fsExists resolveBase
          = Except.error DriverErr.invalidDeviceDriverPath
      ∧ driverCell fsExists resolveBase dev = "no driver path".data)
    ∧ (print_pci_devices fsExists resolveBase devs f).length =
        (each_pci_device_and_path NVIDIA_VENDOR devs).length + 1 := by
  refine ⟨?_, ?_, ?_⟩
  · intro hdev
    subst hdev
    exact ⟨rfl, rfl⟩
  · intro hdev hfs
    have hne : dev.isEmpty = false := by
      cases dev with
      | nil => exact absurd rfl hdev
      | cons a rest => rfl
    have h1 : get_driver_of_device dev fsExists resolveBase
        = Except.error DriverErr.invalidDeviceDriverPath := by
      unfold get_driver_of_device
      rw [if_neg (by simp [hne]), if_pos (by simp [hfs])]
    refine ⟨h1, ?_⟩
    unfold driverCell
    rw [h1]
  · simp [print_pci_devices]

/-- Witness for C8 (amended): both placeholders at concrete inputs. -/
theorem driver_placeholders_witness :
    (get_driver_of_device [] (fun _ => false) (fun q => q)
        = Except.error DriverErr.invalidPCIDeviceName
      ∧ driverCell (fun _ => false) (fun q => q) [] = "no driver".data)
    ∧ (get_driver_of_device "0000:01:00.0".data (fun _ => false) (fun q => q)
        = Except.error DriverErr.invalidDeviceDriverPath
      ∧ driverCell (fun _ => false) (fun q => q) "0000:01:00.0".data
          = "no driver path".data) :=
  ⟨(driver_placeholders (fun _ => false) (fun q => q) [] [] none).1 rfl,
   (driver_placeholders (fun _ => false) (fun q => q) "0000:01:00.0".data [] none).2.1
     (by decide) rfl⟩

/-- Counterexample to C7: with a scan whose second type fails to load,
the first access to `supported_mdev_types` raises but leaves the
partially populated dictionary in the cache — the source assigns the
dictionary before the population loop — and the next access returns that
partial map, which lacks the class's second type. -/
theorem supported_types_partial_counterexample :
    (supported_mdev_types scanDemo ⟨none⟩).2.cache
        = some [("nvidia-100".data, tyA)]
    ∧ (supported_mdev_types scanDemo ⟨none⟩).1 = Except.error ()
    ∧ (supported_mdev_types scanDemo (supported_mdev_types scanDemo ⟨none⟩).2).1
        = Except.ok [("nvidia-100".data, tyA)]
    ∧ alookup [("nvidia-100".data, tyA)] "nvidia-101".data = none := by
  refine ⟨rfl, rfl, rfl, by decide⟩

/-- Helper: when every type loads, the population loop completes with the
full map and no error. -/
theorem loadTypes_allLoaded (scan : List (List Char × LoadResult))
    (h : allLoaded scan = true) :
    ∀ acc, loadTypes scan acc = (acc ++ loadedMap scan, false) := by
  induction scan with
  | nil => intro acc; simp [loadTypes, loadedMap]
  | cons e rest ih =>
    intro acc
    rcases e with ⟨n, lr⟩
    cases lr with
    | loaded t =>
      have h2 : allLoaded rest = true := by
        unfold allLoaded at h
        rw [List.all_cons] at h
        exact ((Bool.and_eq_true _ _).mp h).2
      rw [show loadTypes ((n, LoadResult.loaded t) :: rest) acc
          = loadTypes rest (acc ++ [(n, t)]) from rfl]
      rw [ih h2 (acc ++ [(n, t)])]
      simp [loadedMap]
    | readError =>
      exfalso
      unfold allLoaded at h
      rw [List.all_cons] at h
      have hx := ((Bool.and_eq_true _ _).mp h).1
      simp at hx

/-- Claim C7 (amended): the supported-types mapping is computed on first
access and cached; when every type of the class loads successfully the
cached map contains every scanned type, and every later access returns
the same cached map whatever the scanner would now return (no
re-scanning); but the load is not all-or-nothing: a mid-load failure
leaves the partially built map cached (see the counterexample). -/
theorem supported_types_cache (scan : List (List Char × LoadResult))
    (m : List (List Char × MdevTypeM)) :
    (allLoaded scan = true →
      supported_mdev_types scan ⟨none⟩
        = (Except.ok (loadedMap scan), ⟨some (loadedMap scan)⟩))
    ∧ (∀ scan2, supported_mdev_types scan2 ⟨some m⟩ = (Except.ok m, ⟨some m⟩)) := by
  constructor
  · intro hall
    simp [supported_mdev_types, loadTypes_allLoaded scan hall []]
  · intro scan2
    rfl

/-- Witness for C7 (amended): a fully loading scan caches the full map,
and a second access with an empty scanner still returns it. -/
theorem supported_types_cache_witness :
    supported_mdev_types scanDemoOk ⟨none⟩
        = (Except.ok (loadedMap scanDemoOk), ⟨some (loadedMap scanDemoOk)⟩)
    ∧ supported_mdev_types [] ⟨some (loadedMap scanDemoOk)⟩
        = (Except.ok (loadedMap scanDemoOk), ⟨some (loadedMap scanDemoOk)⟩) :=
  ⟨(supported_types_cache scanDemoOk (loadedMap scanDemoOk)).1 (by decide),
   (supported_types_cache scanDemoOk (loadedMap scanDemoOk)).2 []⟩

/-- Helper: `restore_mdev` is the record-processing fold `runRecords`
composed with the line parser — parsing and processing interleave in the
source loop, but the interleaving is equivalent to parse-then-fold. -/
theorem restore_mdev_eq_runRecords (env : Nat → CreateOutcome) :
    ∀ (lines : List (List Char)) (st : RestoreState),
      restore_mdev env lines st
        = (parseLines lines).map (fun rs => runRecords env rs st) := by
  intro lines
  induction lines with
  | nil => intro st; rfl
  | cons l ls ih =>
    intro st
    simp only [restore_mdev, parseLines]
    cases hp : parseLine l with
    | error e => rfl
    | ok o =>
      cases o with
      | none => exact ih st
      | some r =>
        show restore_mdev env ls (processRecord env st r)
            = Except.map (fun rs => runRecords env rs st)
                (Except.map (fun rs => r :: rs) (parseLines ls))
        rw [ih (processRecord env st r)]
        cases hq : parseLines ls with
        | error e => rfl
        | ok rs => rfl
